import Mathlib

/-!
Shallow embedding of the Video-to-Sprite-Sheet frame pipeline
(src/App.tsx, src/types.ts): the hex color parser, the chroma-key
per-pixel algorithm, the frame extraction loop, and the sprite-sheet
packing geometry. JavaScript numbers are modelled exactly: rationals
for UI-provided settings and timestamps, reals for the Euclidean pixel
distance. Pixel buffers are flat RGBA byte lists as in ImageData.
-/

namespace SpriteForge

/-- Char class of the regex in hexToRgb (App.tsx line 29): digits and
the letters a-f, case-insensitive because of the i flag. -/
def isHexDigit (c : Char) : Bool :=
  c.isDigit || ('a' ≤ c && c ≤ 'f') || ('A' ≤ c && c ≤ 'F')

/-- Value of a single hex digit, as parseInt with base 16 assigns it. -/
def hexDigitVal (c : Char) : ℕ :=
  if c.isDigit then c.toNat - 48
  else if 'a' ≤ c && c ≤ 'f' then c.toNat - 87
  else if 'A' ≤ c && c ≤ 'F' then c.toNat - 55
  else 0

/-- Value of one two-hex-digit capture group under parseInt base 16. -/
def hexPairVal (c1 c2 : Char) : ℕ := 16 * hexDigitVal c1 + hexDigitVal c2

/-- Optional leading hash of the regex (the pattern starts with an
optional hash character). -/
def stripHash : List Char → List Char
  | '#' :: rest => rest
  | l => l

/-- Matcher for the body of the regex of hexToRgb: exactly three
two-hex-digit groups. -/
def hexMatchBody : List Char → Option (ℕ × ℕ × ℕ)
  | [c1, c2, c3, c4, c5, c6] =>
    if isHexDigit c1 && isHexDigit c2 && isHexDigit c3 && isHexDigit c4 &&
        isHexDigit c5 && isHexDigit c6 then
      some (hexPairVal c1 c2, hexPairVal c3 c4, hexPairVal c5 c6)
    else none
  | _ => none

/-- Full regex match of hexToRgb: optional leading hash, then the body. -/
def hexMatch (s : String) : Option (ℕ × ℕ × ℕ) :=
  hexMatchBody (stripHash s.data)

/-- App.tsx lines 28-33: parse a hex color string; on a failed match
fall back to pure green. -/
def hexToRgb (s : String) : ℕ × ℕ × ℕ :=
  (hexMatch s).getD (0, 255, 0)

/-- Strings accepted by the regex of hexToRgb: an optional leading
hash followed by exactly six hex digits. -/
def ValidHexColor (s : String) : Prop :=
  (stripHash s.data).length = 6 ∧ ∀ c ∈ stripHash s.data, isHexDigit c = true

instance (s : String) : Decidable (ValidHexColor s) :=
  inferInstanceAs
    (Decidable ((stripHash s.data).length = 6 ∧ ∀ c ∈ stripHash s.data, isHexDigit c = true))

/-- types.ts ChromaSettings; slider values are exact rationals. -/
structure ChromaSettings where
  enabled : Bool
  color : String
  similarity : ℚ
  smoothness : ℚ
  spill : ℚ

/-- App.tsx lines 242-245: Euclidean color distance of a pixel to the
key color. -/
noncomputable def pixelDist (r g b kr kg kb : ℤ) : ℝ :=
  Real.sqrt (((r - kr) * (r - kr) + (g - kg) * (g - kg) + (b - kb) * (b - kb) : ℤ) : ℝ)

/-- App.tsx lines 247-254: the new alpha of a pixel at distance dist
from the key color. -/
noncomputable def chromaAlpha (dist threshold smoothRange : ℝ) (a : ℤ) : ℤ :=
  if dist < threshold then 0
  else if dist < threshold + smoothRange then ⌊(dist - threshold) / smoothRange * 255⌋
  else a

/-- One iteration of the pixel loop of processFrame: RGB channels are
passed through, only the alpha channel is recomputed. -/
noncomputable def chromaPixel (kr kg kb : ℤ) (threshold smoothRange : ℝ)
    (r g b a : ℤ) : ℤ × ℤ × ℤ × ℤ :=
  (r, g, b, chromaAlpha (pixelDist r g b kr kg kb) threshold smoothRange a)

/-- App.tsx lines 237-255: the loop over the flat RGBA data array with
stride 4. -/
noncomputable def chromaLoop (kr kg kb : ℤ) (threshold smoothRange : ℝ) :
    List ℤ → List ℤ
  | r :: g :: b :: a :: rest =>
    r :: g :: b :: chromaAlpha (pixelDist r g b kr kg kb) threshold smoothRange a ::
      chromaLoop kr kg kb threshold smoothRange rest
  | l => l

/-- App.tsx lines 218-258 processFrame, acting on the bytes of the
freshly drawn image: when keying is disabled the drawn bytes are
returned untouched, otherwise the key color is parsed, the threshold
and smoothing range are derived, and the pixel loop runs. -/
noncomputable def processFrame (settings : ChromaSettings) (data : List ℤ) : List ℤ :=
  if settings.enabled then
    chromaLoop ((hexToRgb settings.color).1 : ℤ) ((hexToRgb settings.color).2.1 : ℤ)
      ((hexToRgb settings.color).2.2 : ℤ)
      ((settings.similarity : ℝ) * 442) ((settings.smoothness : ℝ) * 100) data
  else data

/-- Condition under which the smoothing branch at line 250 is taken:
the full-transparency test failed and dist is below threshold plus
smoothRange. -/
def inSmoothBand (dist threshold smoothRange : ℝ) : Prop :=
  ¬ dist < threshold ∧ dist < threshold + smoothRange

/-- Spec section 4.2, written from the spec text for comparison with
chromaPixel: dist is the Euclidean distance, threshold is similarity
times 442, smoothRange is smoothness times 100, and alpha follows the
three-branch description. -/
noncomputable def specChromaPixel (kr kg kb : ℤ) (similarity smoothness : ℝ)
    (r g b a : ℤ) : ℤ × ℤ × ℤ × ℤ :=
  if Real.sqrt (((r - kr) ^ 2 + (g - kg) ^ 2 + (b - kb) ^ 2 : ℤ) : ℝ) <
      similarity * 442 then
    (r, g, b, 0)
  else if Real.sqrt (((r - kr) ^ 2 + (g - kg) ^ 2 + (b - kb) ^ 2 : ℤ) : ℝ) <
      similarity * 442 + smoothness * 100 then
    (r, g, b,
      ⌊255 * (Real.sqrt (((r - kr) ^ 2 + (g - kg) ^ 2 + (b - kb) ^ 2 : ℤ) : ℝ) -
          similarity * 442) / (smoothness * 100)⌋)
  else (r, g, b, a)

/-- App.tsx lines 161-203: the extraction while-loop. Each iteration
captures one frame at the cursor, advances the cursor by the interval
and breaks once strictly more than 200 frames have been captured. The
fuel argument bounds the recursion; because of the break, 202 units
always suffice. Frames are represented by their capture timestamps. -/
def extractLoop : ℕ → ℚ → ℚ → ℚ → List ℚ → List ℚ
  | 0, _, _, _, extracted => extracted
  | fuel + 1, cursor, endTime, interval, extracted =>
    if cursor ≤ endTime then
      if 200 < (extracted ++ [cursor]).length then extracted ++ [cursor]
      else extractLoop fuel (cursor + interval) endTime interval (extracted ++ [cursor])
    else extracted

/-- App.tsx extractFrames: the interval is the reciprocal of fps and
the cursor starts at startTime. -/
def extractFrames (startTime endTime fps : ℚ) : List ℚ :=
  extractLoop 202 startTime endTime (1 / fps) []

/-- types.ts Frame; the pixel content sits behind originalDataUrl. -/
structure Frame where
  id : String
  timestamp : ℚ
  originalDataUrl : String
  selected : Bool
  deriving DecidableEq

/-- types.ts output mode of the sheet settings. -/
inductive OutputMode
  | scale
  | fixed
  deriving DecidableEq

/-- types.ts SheetSettings. -/
structure SheetSettings where
  columns : ℤ
  scale : ℚ
  padding : ℤ
  outputMode : OutputMode
  customWidth : ℤ
  customHeight : ℤ
  deriving DecidableEq

/-- Destination rectangle of one frame on the sheet, recording the
drawImage call at App.tsx line 358: the source data URL and the target
cell geometry. -/
structure Placement where
  dataUrl : String
  x : ℤ
  y : ℤ
  w : ℤ
  h : ℤ
  deriving DecidableEq

/-- The generated sheet: canvas dimensions plus the drawn cells. The
pixel composition itself happens in the external canvas API. -/
structure Sheet where
  width : ℤ
  height : ℤ
  placements : List Placement
  deriving DecidableEq

/-- Failure conditions of generateSpriteSheet as the code reports
them: a console error for the missing-frames guard at line 282 and an
alert for the empty selection at line 292. The invalidLayout
constructor is the failure mode claimed by the spec; it is included so
that the claim about it is expressible, and the code never produces
it. -/
inductive GenError
  | noFramesGuard
  | emptySelection
  | invalidLayout
  deriving DecidableEq

/-- App.tsx lines 317-326: the target cell size, from the decoded
dimensions of the first selected frame and the output mode. -/
def sheetTarget (originalW originalH : ℤ) (s : SheetSettings) : ℤ × ℤ :=
  match s.outputMode with
  | OutputMode.fixed => (s.customWidth, s.customHeight)
  | OutputMode.scale =>
    (round ((originalW : ℚ) * s.scale), round ((originalH : ℚ) * s.scale))

/-- App.tsx lines 344-359: the placement loop; the frame at index i
lands in column i mod cols and row i div cols. -/
def placeLoop (targetW targetH padding cols : ℤ) : ℕ → List Frame → List Placement
  | _, [] => []
  | i, f :: fs =>
    { dataUrl := f.originalDataUrl
      x := ((i : ℤ) % cols) * (targetW + padding)
      y := ((i : ℤ) / cols) * (targetH + padding)
      w := targetW
      h := targetH } :: placeLoop targetW targetH padding cols (i + 1) fs

/-- App.tsx lines 311-359: geometry of the generated sheet for a
nonempty selection, with the first selected frame supplying the
reference dimensions through the external image decoder dims. -/
def packSheet (dims : String → ℤ × ℤ) (first : Frame) (rest : List Frame)
    (s : SheetSettings) : Sheet :=
  let originalW := (dims first.originalDataUrl).1
  let originalH := (dims first.originalDataUrl).2
  let targetW := (sheetTarget originalW originalH s).1
  let targetH := (sheetTarget originalW originalH s).2
  let cols := s.columns
  let rows : ℤ := ⌈(((first :: rest).length : ℚ)) / (cols : ℚ)⌉
  { width := cols * targetW + (cols - 1) * s.padding
    height := rows * targetH + (rows - 1) * s.padding
    placements := placeLoop targetW targetH s.padding cols 0 (first :: rest) }

/-- App.tsx lines 281-295: the early guard for an empty frame list,
then the selection filter with its empty-selection failure, then the
packing of the selected frames. -/
def generateSpriteSheet (dims : String → ℤ × ℤ) (frames : List Frame)
    (s : SheetSettings) : Except GenError Sheet :=
  if frames.length = 0 then Except.error GenError.noFramesGuard
  else
    match frames.filter (fun f => f.selected) with
    | [] => Except.error GenError.emptySelection
    | first :: rest => Except.ok (packSheet dims first rest s)

/-- Error component of a generation result. -/
def resultErr (r : Except GenError Sheet) : Option GenError :=
  match r with
  | Except.error e => some e
  | Except.ok _ => none

/-- State of generatedSheetUrl after a generateSpriteSheet call. The
early guard at line 282 returns before the state is reset, so the
previous value survives; on every other path the state is first
cleared at line 288 and then set only when a sheet is produced. -/
def generatedSheetAfter (dims : String → ℤ × ℤ) (frames : List Frame)
    (s : SheetSettings) (prev : Option Sheet) : Option Sheet :=
  if frames.length = 0 then prev
  else
    match generateSpriteSheet dims frames s with
    | Except.ok sheet => some sheet
    | Except.error _ => none

/-- App.tsx line 788: the columns input goes through Math.max 1. -/
def columnsInputUpdate (v : ℤ) : ℤ := max 1 v

/-- App.tsx line 792: the padding input goes through Math.max 0. -/
def paddingInputUpdate (v : ℤ) : ℤ := max 0 v

/-- A selected frame with blank metadata, for concrete instances. -/
def blankFrame : Frame :=
  { id := "", timestamp := 0, originalDataUrl := "", selected := true }

/-- An unselected frame, for concrete instances. -/
def unselectedFrame : Frame :=
  { id := "", timestamp := 0, originalDataUrl := "", selected := false }

/-- A frame-dimension oracle decoding every data URL at 200 x 120. -/
def dims0 : String → ℤ × ℤ := fun _ => (200, 120)

/-- Ten selected frames. -/
def frames10 : List Frame := List.replicate 10 blankFrame

/-- Fixed 100 x 100 cells, five columns, padding 2: the layout of the
end-to-end scenario of the spec. -/
def settingsFixed100 : SheetSettings :=
  { columns := 5, scale := 1 / 2, padding := 2, outputMode := OutputMode.fixed,
    customWidth := 100, customHeight := 100 }

/-- The same layout with padding -1: the probe input of the claim
about layout validation. -/
def settingsNegPadding : SheetSettings :=
  { columns := 5, scale := 1 / 2, padding := -1, outputMode := OutputMode.fixed,
    customWidth := 100, customHeight := 100 }

/-- Chroma settings with keying disabled. -/
def disabledChroma : ChromaSettings :=
  { enabled := false, color := "#00ff00", similarity := 1 / 4, smoothness := 1 / 10,
    spill := 1 / 10 }

/-- A sample flat RGBA buffer of two pixels. -/
def sampleData : List ℤ := [0, 255, 0, 255, 10, 20, 30, 40]

/-- A string that is not a hex color. -/
def badColor : String := "not-a-color"

/-- A previously generated sheet, for the state model. -/
def staleSheet : Sheet := { width := 1, height := 1, placements := [] }

/-- A successful regex match certifies a six-hex-digit body. -/
theorem hexMatchBody_some (l : List Char) (v : ℕ × ℕ × ℕ)
    (h : hexMatchBody l = some v) :
    l.length = 6 ∧ ∀ c ∈ l, isHexDigit c = true := by
  rcases l with _ | ⟨c1, _ | ⟨c2, _ | ⟨c3, _ | ⟨c4, _ | ⟨c5, _ | ⟨c6, _ | ⟨c7, t⟩⟩⟩⟩⟩⟩⟩
  all_goals try exact Option.noConfusion h
  have hif : (if (isHexDigit c1 && isHexDigit c2 && isHexDigit c3 && isHexDigit c4 &&
      isHexDigit c5 && isHexDigit c6) = true then
        some (hexPairVal c1 c2, hexPairVal c3 c4, hexPairVal c5 c6)
      else (none : Option (ℕ × ℕ × ℕ))) = some v := h
  by_cases hc : (isHexDigit c1 && isHexDigit c2 && isHexDigit c3 && isHexDigit c4 &&
      isHexDigit c5 && isHexDigit c6) = true
  · refine ⟨rfl, ?_⟩
    simp only [Bool.and_eq_true] at hc
    obtain ⟨⟨⟨⟨⟨h1, h2⟩, h3⟩, h4⟩, h5⟩, h6⟩ := hc
    intro c hm
    simp only [List.mem_cons, List.not_mem_nil, or_false] at hm
    rcases hm with rfl | rfl | rfl | rfl | rfl | rfl <;> assumption
  · rw [if_neg hc] at hif
    exact Option.noConfusion hif

/-- C10: every color string the hex regex rejects is mapped to pure
green (0, 255, 0), so each chroma-key invocation has a defined key
color. -/
theorem hexToRgb_fallback_green (s : String) (h : ¬ ValidHexColor s) :
    hexToRgb s = (0, 255, 0) := by
  unfold hexToRgb hexMatch
  cases heq : hexMatchBody (stripHash s.data) with
  | none => rfl
  | some v => exact absurd (hexMatchBody_some _ _ heq) h

/-- Witness for the fallback theorem at a concrete invalid string. -/
theorem hexToRgb_fallback_green_witness :
    ¬ ValidHexColor badColor ∧ hexToRgb badColor = (0, 255, 0) :=
  ⟨by decide, hexToRgb_fallback_green badColor (by decide)⟩

/-- Once the cursor has passed endTime the loop returns its
accumulator, whatever fuel remains. -/
theorem extractLoop_past (fuel : ℕ) (cursor endTime interval : ℚ) (acc : List ℚ)
    (hc : ¬ cursor ≤ endTime) :
    extractLoop fuel cursor endTime interval acc = acc := by
  cases fuel with
  | zero => rfl
  | succ fuel => rw [extractLoop, if_neg hc]

/-- Length of the extraction loop: with a positive interval and enough
fuel it returns the remaining sample count, stopped at 201 entries by
the break. -/
theorem extractLoop_length (endTime interval : ℚ) (hi : 0 < interval) :
    ∀ (fuel : ℕ) (cursor : ℚ) (acc : List ℚ),
      cursor ≤ endTime → acc.length ≤ 200 → 201 ≤ fuel + acc.length →
      (extractLoop fuel cursor endTime interval acc).length =
        min (acc.length + (⌊(endTime - cursor) / interval⌋.toNat + 1)) 201 := by
  intro fuel
  induction fuel with
  | zero =>
    intro cursor acc hce hacc hfuel
    omega
  | succ fuel ih =>
    intro cursor acc hce hacc hfuel
    rw [extractLoop, if_pos hce]
    have hfl0 : 0 ≤ ⌊(endTime - cursor) / interval⌋ :=
      Int.floor_nonneg.2 (div_nonneg (by linarith) hi.le)
    by_cases hbreak : 200 < (acc ++ [cursor]).length
    · rw [if_pos hbreak]
      simp only [List.length_append, List.length_singleton] at hbreak ⊢
      omega
    · rw [if_neg hbreak]
      simp only [List.length_append, List.length_singleton] at hbreak
      by_cases hnext : cursor + interval ≤ endTime
      · rw [ih (cursor + interval) (acc ++ [cursor]) hnext
          (by simp only [List.length_append, List.length_singleton]; omega)
          (by simp only [List.length_append, List.length_singleton]; omega)]
        have hne : interval ≠ 0 := ne_of_gt hi
        have hdiv : (endTime - (cursor + interval)) / interval =
            (endTime - cursor) / interval - 1 := by
          have hsub : endTime - (cursor + interval) = (endTime - cursor) - interval := by
            ring
          rw [hsub, sub_div, div_self hne]
        have hfl1 : 0 ≤ ⌊(endTime - (cursor + interval)) / interval⌋ :=
          Int.floor_nonneg.2 (div_nonneg (by linarith) hi.le)
        rw [hdiv, Int.floor_sub_one] at hfl1 ⊢
        simp only [List.length_append, List.length_singleton]
        omega
      · rw [extractLoop_past fuel _ _ _ _ hnext]
        have hfl2 : ⌊(endTime - cursor) / interval⌋ = 0 := by
          rw [Int.floor_eq_zero_iff, Set.mem_Ico]
          constructor
          · exact div_nonneg (by linarith) hi.le
          · rw [div_lt_one hi]
            linarith
        simp only [List.length_append, List.length_singleton, hfl2]
        omega

/-- C1: for a valid sampling window and positive fps, the extraction
loop captures min(floor((endTime - startTime) * fps) + 1, 201) frames.
Below the cap this is the claimed floor((endTime - startTime) * fps) +
1; at the cap the break fires only after the push, so the code keeps
201 frames where the claim (and the alert text of the code itself)
says 200. -/
theorem extractFrames_count (startTime endTime fps : ℚ) (h0 : 0 ≤ startTime)
    (hse : startTime < endTime) (hfps : 0 < fps) :
    (extractFrames startTime endTime fps).length =
      min (⌊(endTime - startTime) * fps⌋.toNat + 1) 201 := by
  have hi : 0 < 1 / fps := by positivity
  have h := extractLoop_length endTime (1 / fps) hi 202 startTime [] hse.le
    (by simp) (by simp)
  have hdiv : (endTime - startTime) / (1 / fps) = (endTime - startTime) * fps := by
    field_simp
  rw [extractFrames, h, hdiv]
  simp

/-- Witness: the failing input of the cap claim, the window 0..30 at
10 fps, where the code keeps 201 frames. -/
theorem extractFrames_count_witness :
    (extractFrames 0 30 10).length = 201 := by
  have h := extractFrames_count 0 30 10 (by norm_num) (by norm_num) (by norm_num)
  rw [h, show ((30 : ℚ) - 0) * 10 = ((300 : ℤ) : ℚ) by norm_num, Int.floor_intCast]
  decide

/-- C2 counterexample: invoking generation with padding -1 on a
nonempty selection does not fail with any layout error; the sheet is
produced with the geometry formulas applied verbatim. -/
theorem pack_negative_padding_no_error :
    generateSpriteSheet dims0 [blankFrame] settingsNegPadding =
      Except.ok (packSheet dims0 blankFrame [] settingsNegPadding) ∧
    resultErr (generateSpriteSheet dims0 [blankFrame] settingsNegPadding) = none := by
  exact ⟨rfl, rfl⟩

/-- C2 amended: generateSpriteSheet performs no layout validation and
never fails with an invalid-layout error; its only synchronous checks
are the frames guard and the empty-selection test, and the UI input
handlers instead keep columns at least 1 and padding at least 0. -/
theorem pack_never_invalid_layout :
    (∀ (dims : String → ℤ × ℤ) (frames : List Frame) (s : SheetSettings),
      resultErr (generateSpriteSheet dims frames s) ≠ some GenError.invalidLayout) ∧
    (∀ v : ℤ, 1 ≤ columnsInputUpdate v ∧ 0 ≤ paddingInputUpdate v) := by
  constructor
  · intro dims frames s
    unfold generateSpriteSheet
    split
    · simp [resultErr]
    · split <;> simp [resultErr]
  · intro v
    exact ⟨le_max_left 1 v, le_max_left 0 v⟩

/-- C6 counterexample: with a previously generated sheet in state and
an empty frame list (whose selection filter is empty), the call fails
through the early frames guard, not with the empty-selection error,
and the generated-sheet state keeps its previous value instead of
being left unset. -/
theorem empty_frames_guard_keeps_state :
    List.filter (fun f => f.selected) ([] : List Frame) = [] ∧
    generateSpriteSheet dims0 [] settingsFixed100 =
      Except.error GenError.noFramesGuard ∧
    generatedSheetAfter dims0 [] settingsFixed100 (some staleSheet) = some staleSheet :=
  ⟨rfl, rfl, rfl⟩

/-- C6 amended: when the frame list is nonempty but the selection
filter is empty, generation fails with the empty-selection error and
the generated-sheet state is left unset. -/
theorem empty_selection_error (dims : String → ℤ × ℤ) (frames : List Frame)
    (s : SheetSettings) (prev : Option Sheet) (hne : frames ≠ [])
    (hsel : frames.filter (fun f => f.selected) = []) :
    generateSpriteSheet dims frames s = Except.error GenError.emptySelection ∧
    generatedSheetAfter dims frames s prev = none := by
  have hlen : ¬ frames.length = 0 := by
    cases frames with
    | nil => exact absurd rfl hne
    | cons a l => simp
  have hg : generateSpriteSheet dims frames s = Except.error GenError.emptySelection := by
    unfold generateSpriteSheet
    rw [if_neg hlen, hsel]
  refine ⟨hg, ?_⟩
  unfold generatedSheetAfter
  rw [if_neg hlen, hg]

/-- Witness for the amended empty-selection theorem. -/
theorem empty_selection_error_witness :
    generateSpriteSheet dims0 [unselectedFrame] settingsFixed100 =
      Except.error GenError.emptySelection ∧
    generatedSheetAfter dims0 [unselectedFrame] settingsFixed100 (some staleSheet) = none :=
  empty_selection_error dims0 [unselectedFrame] settingsFixed100 (some staleSheet)
    (by decide) (by decide)

/-- C4: for a nonempty selection with at least one column, the sheet
geometry follows the spec formulas: rows is the ceiling of the
selected count over columns, width is cols * targetW + (cols - 1) *
padding, height is rows * targetH + (rows - 1) * padding, and the
target cell size is the fixed pair in fixed mode and the rounded
scaled first-frame dimensions in scale mode. -/
theorem packSheet_geometry (dims : String → ℤ × ℤ) (frames : List Frame)
    (s : SheetSettings) (first : Frame) (rest : List Frame)
    (hsel : frames.filter (fun f => f.selected) = first :: rest)
    (hc : 1 ≤ s.columns) :
    generateSpriteSheet dims frames s = Except.ok (packSheet dims first rest s) ∧
    (packSheet dims first rest s).width =
      s.columns * (sheetTarget (dims first.originalDataUrl).1
        (dims first.originalDataUrl).2 s).1 + (s.columns - 1) * s.padding ∧
    (packSheet dims first rest s).height =
      ⌈(((first :: rest).length : ℚ)) / (s.columns : ℚ)⌉ *
          (sheetTarget (dims first.originalDataUrl).1
            (dims first.originalDataUrl).2 s).2 +
        (⌈(((first :: rest).length : ℚ)) / (s.columns : ℚ)⌉ - 1) * s.padding ∧
    (s.outputMode = OutputMode.fixed →
      sheetTarget (dims first.originalDataUrl).1 (dims first.originalDataUrl).2 s =
        (s.customWidth, s.customHeight)) ∧
    (s.outputMode = OutputMode.scale →
      sheetTarget (dims first.originalDataUrl).1 (dims first.originalDataUrl).2 s =
        (round (((dims first.originalDataUrl).1 : ℚ) * s.scale),
          round (((dims first.originalDataUrl).2 : ℚ) * s.scale))) := by
  have hlen : ¬ frames.length = 0 := by
    intro h0
    rw [List.length_eq_zero] at h0
    subst h0
    simp at hsel
  refine ⟨?_, rfl, rfl, ?_, ?_⟩
  · unfold generateSpriteSheet
    rw [if_neg hlen, hsel]
  · intro h
    simp [sheetTarget, h]
  · intro h
    simp [sheetTarget, h]

/-- Witness for the geometry theorem at the end-to-end scenario of
the spec: ten selected frames, five columns, fixed 100 x 100 cells,
padding 2 give a 508 x 202 sheet. -/
theorem packSheet_geometry_witness :
    (packSheet dims0 blankFrame (List.replicate 9 blankFrame) settingsFixed100).width = 508 ∧
    (packSheet dims0 blankFrame (List.replicate 9 blankFrame) settingsFixed100).height = 202 := by
  have h := packSheet_geometry dims0 frames10 settingsFixed100 blankFrame
    (List.replicate 9 blankFrame) (by decide) (by decide)
  have hceil : ⌈(((blankFrame :: List.replicate 9 blankFrame).length : ℚ)) /
      ((settingsFixed100.columns : ℚ))⌉ = 2 := by
    rw [show (((blankFrame :: List.replicate 9 blankFrame).length : ℚ)) /
        ((settingsFixed100.columns : ℚ)) = ((2 : ℤ) : ℚ) by
      norm_num [settingsFixed100, List.length_replicate]]
    exact Int.ceil_intCast 2
  constructor
  · rw [h.2.1]
    decide
  · rw [h.2.2.1, hceil]
    decide

/-- Index formula for the placement loop, for any starting index. -/
theorem placeLoop_getElem (targetW targetH padding cols : ℤ) (l : List Frame) :
    ∀ (j i : ℕ),
      (placeLoop targetW targetH padding cols j l)[i]? =
        (l[i]?).map (fun f =>
          { dataUrl := f.originalDataUrl
            x := (((j + i : ℕ) : ℤ) % cols) * (targetW + padding)
            y := (((j + i : ℕ) : ℤ) / cols) * (targetH + padding)
            w := targetW
            h := targetH }) := by
  induction l with
  | nil =>
    intro j i
    simp [placeLoop]
  | cons f fs ih =>
    intro j i
    cases i with
    | zero => simp [placeLoop]
    | succ i =>
      have hrw : j + (i + 1) = (j + 1) + i := by omega
      simp only [placeLoop, List.getElem?_cons_succ, hrw]
      exact ih (j + 1) i

/-- C5: the frame at index i of the selection is placed at column
i mod cols and row i div cols with origin (col * (targetW + padding),
row * (targetH + padding)); in the concrete scenario with ten selected
frames, five columns, fixed 100 x 100 cells and padding 2, index 7
lands at column 2, row 1, origin (204, 102). -/
theorem packSheet_placement :
    (∀ (dims : String → ℤ × ℤ) (first : Frame) (rest : List Frame)
        (s : SheetSettings) (i : ℕ),
      (packSheet dims first rest s).placements[i]? =
        ((first :: rest)[i]?).map (fun f =>
          { dataUrl := f.originalDataUrl
            x := ((i : ℤ) % s.columns) *
              ((sheetTarget (dims first.originalDataUrl).1
                  (dims first.originalDataUrl).2 s).1 + s.padding)
            y := ((i : ℤ) / s.columns) *
              ((sheetTarget (dims first.originalDataUrl).1
                  (dims first.originalDataUrl).2 s).2 + s.padding)
            w := (sheetTarget (dims first.originalDataUrl).1
                (dims first.originalDataUrl).2 s).1
            h := (sheetTarget (dims first.originalDataUrl).1
                (dims first.originalDataUrl).2 s).2 })) ∧
    (packSheet dims0 blankFrame (List.replicate 9 blankFrame)
        settingsFixed100).placements[7]? =
      some { dataUrl := "", x := 204, y := 102, w := 100, h := 100 } := by
  constructor
  · intro dims first rest s i
    show (placeLoop _ _ _ _ 0 (first :: rest))[i]? = _
    rw [placeLoop_getElem]
    simp
  · decide

/-- C3: the per-pixel chroma computation of the code coincides with
the spec description: alpha 0 below the threshold, the linear
floor(255 * (dist - threshold) / smoothRange) ramp inside the
smoothing band, and an untouched pixel beyond it, with RGB passed
through in every branch. -/
theorem chromaPixel_matches_spec (kr kg kb r g b a : ℤ) (similarity smoothness : ℝ) :
    chromaPixel kr kg kb (similarity * 442) (smoothness * 100) r g b a =
      specChromaPixel kr kg kb similarity smoothness r g b a := by
  have hd : Real.sqrt (((r - kr) ^ 2 + (g - kg) ^ 2 + (b - kb) ^ 2 : ℤ) : ℝ) =
      pixelDist r g b kr kg kb := by
    unfold pixelDist
    congr 1
    push_cast
    ring
  unfold chromaPixel chromaAlpha specChromaPixel
  rw [hd]
  split_ifs with h1 h2
  · rfl
  · have hmul : (pixelDist r g b kr kg kb - similarity * 442) / (smoothness * 100) * 255 =
        255 * (pixelDist r g b kr kg kb - similarity * 442) / (smoothness * 100) := by
      ring
    rw [hmul]
  · rfl

/-- C7: when the smoothing range is zero the smoothing branch is
unreachable for every pixel (its guard contradicts the failed
full-transparency test, so the ramp division is never reached) and the
computation degenerates to a hard cutoff at the threshold. -/
theorem smoothRange_zero_hard_cutoff (similarity smoothness : ℝ)
    (h : smoothness * 100 = 0) (kr kg kb r g b a : ℤ) :
    ¬ inSmoothBand (pixelDist r g b kr kg kb) (similarity * 442) (smoothness * 100) ∧
    chromaPixel kr kg kb (similarity * 442) (smoothness * 100) r g b a =
      (r, g, b, if pixelDist r g b kr kg kb < similarity * 442 then 0 else a) := by
  constructor
  · rintro ⟨hge, hlt⟩
    rw [h, add_zero] at hlt
    exact hge hlt
  · unfold chromaPixel chromaAlpha
    rw [h, add_zero]
    split_ifs with h1 <;> rfl

/-- Witness for the hard-cutoff theorem at zero smoothness. -/
theorem smoothRange_zero_hard_cutoff_witness :
    (0 : ℝ) * 100 = 0 ∧
    (¬ inSmoothBand (pixelDist 10 20 30 0 255 0) ((1 / 4 : ℝ) * 442) ((0 : ℝ) * 100) ∧
      chromaPixel 0 255 0 ((1 / 4 : ℝ) * 442) ((0 : ℝ) * 100) 10 20 30 40 =
        (10, 20, 30, if pixelDist 10 20 30 0 255 0 < (1 / 4 : ℝ) * 442 then 0 else 40)) :=
  ⟨by norm_num, smoothRange_zero_hard_cutoff (1 / 4) 0 (by norm_num) 0 255 0 10 20 30 40⟩

/-- C8: inside the smoothing band the output alpha is non-decreasing
in the distance to the key color. -/
theorem chromaAlpha_mono_in_band (threshold smoothRange d1 d2 : ℝ) (a1 a2 : ℤ)
    (hS : 0 < smoothRange) (h1 : threshold ≤ d1) (h12 : d1 ≤ d2)
    (h2 : d2 < threshold + smoothRange) :
    chromaAlpha d1 threshold smoothRange a1 ≤ chromaAlpha d2 threshold smoothRange a2 := by
  have hd1lt : d1 < threshold + smoothRange := lt_of_le_of_lt h12 h2
  have hn1 : ¬ d1 < threshold := not_lt.2 h1
  have hn2 : ¬ d2 < threshold := not_lt.2 (h1.trans h12)
  unfold chromaAlpha
  rw [if_neg hn1, if_pos hd1lt, if_neg hn2, if_pos h2]
  exact Int.floor_le_floor (by gcongr)

/-- Witness for the monotone ramp theorem at concrete distances. -/
theorem chromaAlpha_mono_in_band_witness :
    ((0 : ℝ) < 50 ∧ (100 : ℝ) ≤ 110 ∧ (110 : ℝ) ≤ 120 ∧ (120 : ℝ) < 100 + 50) ∧
    chromaAlpha 110 100 50 3 ≤ chromaAlpha 120 100 50 4 :=
  ⟨⟨by norm_num, by norm_num, by norm_num, by norm_num⟩,
    chromaAlpha_mono_in_band 100 50 110 120 3 4 (by norm_num) (by norm_num)
      (by norm_num) (by norm_num)⟩

/-- C9: with keying disabled, processFrame returns the drawn bytes
unchanged, and any number of re-applications yields the same
byte-identical buffer. -/
theorem processFrame_disabled_identity (settings : ChromaSettings)
    (h : settings.enabled = false) :
    ∀ (n : ℕ) (data : List ℤ), (processFrame settings)^[n] data = data := by
  intro n
  induction n with
  | zero =>
    intro data
    rfl
  | succ n ih =>
    intro data
    rw [Function.iterate_succ_apply]
    have hstep : processFrame settings data = data := by
      simp [processFrame, h]
    rw [hstep]
    exact ih data

/-- Witness for the disabled-keying identity: two applications on a
sample buffer. -/
theorem processFrame_disabled_identity_witness :
    (processFrame disabledChroma)^[2] sampleData = sampleData :=
  processFrame_disabled_identity disabledChroma rfl 2 sampleData

end SpriteForge
